import Mathlib

/-!
Shallow embedding of the frame-presentation lifecycle manager in
`src/VulkanRenderer/vre_app.cpp` (class `vre::VreApp`), together with proofs
of the behavioural properties claimed for it.

External collaborators (device, window, swap-chain construction, command-buffer
allocation) are modelled as oracle parameters; handles are modelled as `Nat`,
floating-point literals as `ℚ`, and the single `static_cast<float>` on an
integer count as an explicit round-to-nearest-even at 24 significant bits.
-/

namespace Vre

/-- `VkExtent2D`: a width/height pair, as reported by `vreWindow.getExtent()`. -/
structure VkExtent2D where
  width : Nat
  height : Nat
deriving DecidableEq, Repr

/-- The `VkResult` values `drawFrame` distinguishes: `VK_SUCCESS`,
`VK_SUBOPTIMAL_KHR`, `VK_ERROR_OUT_OF_DATE_KHR`, and every other (failure)
code, kept abstract as `otherFailure c`. -/
inductive VkResult where
  | success
  | suboptimalKhr
  | errorOutOfDateKhr
  | otherFailure (code : Nat)
deriving DecidableEq, Repr

/-- The state of a `VreSwapChain` that `VreApp` observes: its image count,
current extent, render-pass handle and per-image framebuffer handles. -/
structure VreSwapChain where
  imageCount : Nat
  swapChainExtent : VkExtent2D
  renderPass : Nat
  framebuffers : List Nat
deriving DecidableEq, Repr

/-- A vertex of `VreModel::Vertex`: 2-component position, 3-component color
(float literals embedded as rationals). -/
structure Vertex where
  position : ℚ × ℚ
  color : ℚ × ℚ × ℚ
deriving DecidableEq, Repr

/-- A `VreModel`: the vertex data handed to the vertex buffer. -/
structure VreModel where
  vertices : List Vertex
deriving DecidableEq, Repr

/-- `VreApp::loadModels()`: the hard-coded triangle. -/
def loadModels : VreModel :=
  ⟨[⟨(0, -1/2), (1, 0, 0)⟩, ⟨(1/2, 1/2), (0, 1, 0)⟩, ⟨(-1/2, 1/2), (0, 0, 1)⟩]⟩

/-- A `VrePipeline` as configured by `VreApp::createPipeline()`: the render
pass and pipeline layout wired into the default config, plus the two fixed
shader paths. -/
structure VrePipeline where
  renderPass : Nat
  pipelineLayout : Nat
  vertShaderPath : String
  fragShaderPath : String
deriving DecidableEq, Repr

/-- The mutable members of `VreApp` (the window's resize flag included, since
`drawFrame` reads and resets it). `Option` models the null state of the
`unique_ptr` members and of the pipeline-layout handle. -/
structure AppState where
  commandBuffers : List Nat
  vreSwapChain : Option VreSwapChain
  pipelineLayout : Option Nat
  vrePipeline : Option VrePipeline
  vreModel : Option VreModel
  windowResized : Bool
deriving DecidableEq, Repr

/-! ### The `static_cast<float>` round trip in `freeCommandBuffers` -/

/-- Number of binary digits of `n`. -/
def bitLen (n : Nat) : Nat :=
  if n = 0 then 0 else Nat.log2 n + 1

/-- Round `n` to a multiple of `2 ^ shift`, ties to even — the IEEE-754
default rounding applied when an integer is converted to a binary float whose
significand keeps all but the low `shift` bits. -/
def roundNearestEven (n shift : Nat) : Nat :=
  let q := n / 2 ^ shift
  let r := n % 2 ^ shift
  if 2 * r > 2 ^ shift ∨ (2 * r = 2 ^ shift ∧ q % 2 = 1) then (q + 1) * 2 ^ shift
  else q * 2 ^ shift

/-- The value of `commandBuffers.size()` after `static_cast<float>` (IEEE-754
single precision, 24-bit significand, round to nearest even) and conversion
back to an unsigned integer, as in `freeCommandBuffers` line 89. -/
def floatCastRoundTrip (n : Nat) : Nat :=
  roundNearestEven n (bitLen n - 24)

/-- `VreApp::freeCommandBuffers()`: hands `vkFreeCommandBuffers` a count that
went through `static_cast<float>`, then clears the vector. Returns the count
passed to the pool together with the cleared vector. Total: no error path. -/
def freeCommandBuffers (commandBuffers : List Nat) : Nat × List Nat :=
  (floatCastRoundTrip commandBuffers.length, [])

/-- `VreApp::createCommandBuffers()`: `commandBuffers.resize(imageCount)` then
`vkAllocateCommandBuffers` fills every slot or fails. The allocation oracle
returns `none` on failure, or a handle for each slot on success; the resize
fixes the length at `imageCount`. -/
def createCommandBuffers (sc : VreSwapChain) (alloc : Nat → Option (Nat → Nat)) :
    Option (List Nat) :=
  match alloc sc.imageCount with
  | none => none
  | some h => some ((List.range sc.imageCount).map h)

/-! ### The extent-polling loop of `recreateSwapChain` (lines 141–146) -/

/-- The loop `while (extent.width == 0 || extent.height == 0) { extent =
vreWindow.getExtent(); glfwWaitEvents(); }`. The window oracle `w` gives the
extent as a function of how many `glfwWaitEvents` calls have completed.
State: remaining fuel, last extent read, reads so far, waits so far. Note the
source reads the extent *before* waiting, so the loop condition always tests
the value read before the most recent wait. -/
def extentLoopAux (w : Nat → VkExtent2D) :
    Nat → VkExtent2D → Nat → Nat → Option (VkExtent2D × Nat × Nat)
  | 0, e, reads, waits =>
    if e.width = 0 ∨ e.height = 0 then none else some (e, reads, waits)
  | fuel + 1, e, reads, waits =>
    if e.width = 0 ∨ e.height = 0 then
      extentLoopAux w fuel (w waits) (reads + 1) (waits + 1)
    else
      some (e, reads, waits)

/-- Lines 141–146 as a whole: `auto extent = vreWindow.getExtent();` (one read
at zero waits) followed by the polling loop. Returns the final extent, the
total number of `getExtent` calls and the total number of `glfwWaitEvents`
calls, or `none` if the fuel runs out (window never leaves zero extent). -/
def pollNonzeroExtent (w : Nat → VkExtent2D) (fuel : Nat) :
    Option (VkExtent2D × Nat × Nat) :=
  extentLoopAux w fuel (w 0) 1 0

/-! ### `createPipeline` and `recreateSwapChain` -/

/-- `VreApp::createPipeline()`: asserts that the swap chain and the pipeline
layout exist (returning `none` models a fired assertion), then builds the
pipeline from the default config overridden with the swap chain's render pass
and the pipeline layout, and the two fixed shader paths. -/
def createPipeline (s : AppState) : Option VrePipeline :=
  match s.vreSwapChain, s.pipelineLayout with
  | some sc, some pl =>
      some ⟨sc.renderPass, pl, "shaders/simple_shader.vert.spv",
        "shaders/simple_shader.frag.spv"⟩
  | _, _ => none

/-- How a `recreateSwapChain` call can fail: the fuel bound on the extent loop
ran out (the real loop would still be blocking), an assertion in
`createPipeline` fired, or `vkAllocateCommandBuffers` failed. -/
inductive RecreateErr where
  | outOfFuel
  | assertFail
  | allocFail
deriving DecidableEq, Repr

/-- Observable activity of one `recreateSwapChain` call: how many times the
window extent was read, how many times `glfwWaitEvents` ran, and the extents
at which a `VreSwapChain` was constructed. -/
structure RecreateLog where
  extentReads : Nat
  waits : Nat
  constructions : List VkExtent2D
deriving DecidableEq, Repr

/-- The tail of `recreateSwapChain` (line 162): call `createPipeline` on the
updated state; a fired assertion is `assertFail`, otherwise the pipeline is
installed and the call succeeds with its activity log. -/
def finishRecreate (s1 : AppState) (reads waits : Nat) (extent : VkExtent2D) :
    Except RecreateErr (AppState × RecreateLog) :=
  match createPipeline s1 with
  | none => .error .assertFail
  | some p => .ok ({ s1 with vrePipeline := some p }, ⟨reads, waits, [extent]⟩)

/-- The body of `recreateSwapChain` after the extent loop and the device-idle
wait (lines 148–162): the fresh branch constructs a swap chain from the
extent alone, the replacement branch hands the old swap chain to the new one
and frees/reallocates the command buffers exactly when the new image count
differs from the current vector length. -/
def recreateAfterPoll (mk : VkExtent2D → Option VreSwapChain → VreSwapChain)
    (alloc : Nat → Option (Nat → Nat)) (s : AppState) (extent : VkExtent2D)
    (reads waits : Nat) : Except RecreateErr (AppState × RecreateLog) :=
  match s.vreSwapChain with
  | none =>
    finishRecreate { s with vreSwapChain := some (mk extent none) } reads waits extent
  | some old =>
    let sc := mk extent (some old)
    if sc.imageCount ≠ s.commandBuffers.length then
      let (_, cleared) := freeCommandBuffers s.commandBuffers
      match createCommandBuffers sc alloc with
      | none => .error .allocFail
      | some cbs =>
        finishRecreate { s with vreSwapChain := some sc, commandBuffers := cleared ++ cbs }
          reads waits extent
    else
      finishRecreate { s with vreSwapChain := some sc } reads waits extent

/-- `VreApp::recreateSwapChain()` (lines 139–163). `win` is the window's
extent oracle (a function of completed waits), `mk extent old` the
`VreSwapChain` constructor oracle (`old = none` for the fresh two-argument
constructor, `old = some c` for the state-transferring one), `alloc` the
command-buffer allocation oracle. The extent loop runs first; then (after
`vkDeviceWaitIdle`, with no observable state change) the branch on the
existing swap chain, ending in `createPipeline`. -/
def recreateSwapChain (win : Nat → VkExtent2D)
    (mk : VkExtent2D → Option VreSwapChain → VreSwapChain)
    (alloc : Nat → Option (Nat → Nat)) (fuel : Nat) (s : AppState) :
    Except RecreateErr (AppState × RecreateLog) :=
  match pollNonzeroExtent win fuel with
  | none => .error .outOfFuel
  | some (extent, reads, waits) => recreateAfterPoll mk alloc s extent reads waits

/-! ### `recordCommandBuffer` -/

/-- One recorded command, carrying exactly the parameters the source passes:
the render-pass begin info (render pass, framebuffer, offset, extent, the
fixed clear values), the viewport and scissor, the pipeline and vertex-buffer
binds, and the draw of the model's vertex count. -/
inductive Cmd where
  | beginCommandBuffer
  | beginRenderPass (renderPass framebuffer : Nat) (offset : Nat × Nat)
      (extent : VkExtent2D) (clearColor : ℚ × ℚ × ℚ × ℚ) (clearDepthStencil : ℚ × Nat)
  | setViewport (x y width height minDepth maxDepth : ℚ)
  | setScissor (offset : Nat × Nat) (extent : VkExtent2D)
  | bindPipeline (p : VrePipeline)
  | bindVertexBuffer (m : VreModel)
  | draw (vertexCount : Nat)
  | endRenderPass
  | endCommandBuffer
deriving DecidableEq, Repr

/-- `VreApp::recordCommandBuffer(imageIndex)` (lines 94–137): the sequence of
commands recorded into `commandBuffers[imageIndex]`. Clear values are the
fixed `{0.1, 0.1, 0.1, 1.0}` color and `{1.0, 0}` depth/stencil; the viewport
width/height are the extent dimensions after `static_cast<float>`; the
framebuffer is `vreSwapChain->getFrameBuffer(imageIndex)`. -/
def recordCommandBuffer (sc : VreSwapChain) (p : VrePipeline) (m : VreModel)
    (imageIndex : Nat) : List Cmd :=
  [ .beginCommandBuffer,
    .beginRenderPass sc.renderPass (sc.framebuffers.getD imageIndex 0) (0, 0)
      sc.swapChainExtent (1/10, 1/10, 1/10, 1) (1, 0),
    .setViewport 0 0 (floatCastRoundTrip sc.swapChainExtent.width)
      (floatCastRoundTrip sc.swapChainExtent.height) 0 1,
    .setScissor (0, 0) sc.swapChainExtent,
    .bindPipeline p,
    .bindVertexBuffer m,
    .draw m.vertices.length,
    .endRenderPass,
    .endCommandBuffer ]

/-! ### `drawFrame` -/

/-- Observable events of one `drawFrame` call, in order: recording a command
buffer, submitting it, resetting the window's resize flag, and one
`recreateSwapChain` cycle. -/
inductive Ev where
  | record (imageIndex : Nat) (cmds : List Cmd)
  | submit (imageIndex : Nat)
  | resetResizeFlag
  | recreate
deriving DecidableEq, Repr

/-- How `drawFrame` can fail: the fatal acquire throw (line 176), the fatal
present throw (line 190), a failure inside `recreateSwapChain`, or a null
`unique_ptr` dereference (never reachable from a constructed app). -/
inductive DrawErr where
  | acquireFail
  | presentFail
  | recreateFail (e : RecreateErr)
  | nullHandle
deriving DecidableEq, Repr

/-- `VreApp::drawFrame()` (lines 165–192). `acqRes` and `imageIndex` are the
result and index produced by `vreSwapChain->acquireNextImage`, `subRes` the
result of `vreSwapChain->submitCommandBuffers`. Out-of-date at acquire
recreates and returns; other non-success/non-suboptimal acquire results are
fatal; otherwise the frame is recorded and submitted, and only then are an
out-of-date/suboptimal submit result or a pending resize flag handled by
resetting the flag and recreating. -/
def drawFrame (win : Nat → VkExtent2D)
    (mk : VkExtent2D → Option VreSwapChain → VreSwapChain)
    (alloc : Nat → Option (Nat → Nat)) (acqRes : VkResult) (imageIndex : Nat)
    (subRes : VkResult) (fuel : Nat) (s : AppState) :
    Except DrawErr (AppState × List Ev) :=
  match s.vreSwapChain with
  | none => .error .nullHandle
  | some sc =>
    if acqRes = .errorOutOfDateKhr then
      match recreateSwapChain win mk alloc fuel s with
      | .error e => .error (.recreateFail e)
      | .ok (s1, _) => .ok (s1, [.recreate])
    else if acqRes ≠ .success ∧ acqRes ≠ .suboptimalKhr then
      .error .acquireFail
    else
      match s.vrePipeline, s.vreModel with
      | some p, some m =>
        let cmds := recordCommandBuffer sc p m imageIndex
        if subRes = .errorOutOfDateKhr ∨ subRes = .suboptimalKhr ∨ s.windowResized then
          let s1 := { s with windowResized := false }
          match recreateSwapChain win mk alloc fuel s1 with
          | .error e => .error (.recreateFail e)
          | .ok (s2, _) =>
            .ok (s2, [.record imageIndex cmds, .submit imageIndex,
              .resetResizeFlag, .recreate])
        else if subRes ≠ .success then
          .error .presentFail
        else
          .ok (s, [.record imageIndex cmds, .submit imageIndex])
      | _, _ => .error .nullHandle

/-! ### The constructor `VreApp::VreApp()` and reachable states -/

/-- How construction can fail: `vkCreatePipelineLayout` failed (line 52),
`recreateSwapChain` failed, or the final `createCommandBuffers` failed. -/
inductive InitErr where
  | pipelineLayoutFail
  | recreateFail (e : RecreateErr)
  | allocFail
deriving DecidableEq, Repr

/-- The member state before the constructor body runs: empty command-buffer
vector, null `unique_ptr`s, null pipeline layout, resize flag clear. -/
def initialState : AppState :=
  ⟨[], none, none, none, none, false⟩

/-- The state after `loadModels()` in the constructor. -/
def initialModelState : AppState :=
  { initialState with vreModel := some loadModels }

/-- The constructor body after `createPipelineLayout()` succeeded:
`recreateSwapChain(); createCommandBuffers();` run from the state `s2` that
already holds the pipeline layout. -/
def constructorRest (win : Nat → VkExtent2D)
    (mk : VkExtent2D → Option VreSwapChain → VreSwapChain)
    (alloc : Nat → Option (Nat → Nat)) (fuel : Nat) (s2 : AppState) :
    Except InitErr AppState :=
  match recreateSwapChain win mk alloc fuel s2 with
  | .error e => .error (.recreateFail e)
  | .ok (s3, _) =>
    match s3.vreSwapChain with
    | none => .error .allocFail
    | some sc =>
      match createCommandBuffers sc alloc with
      | none => .error .allocFail
      | some cbs => .ok { s3 with commandBuffers := cbs }

/-- `VreApp::VreApp()` (lines 9–15): `loadModels(); createPipelineLayout();
recreateSwapChain(); createCommandBuffers();`. `plRes` is the result of
`vkCreatePipelineLayout` (`some handle` on success). -/
def vreAppInit (win : Nat → VkExtent2D)
    (mk : VkExtent2D → Option VreSwapChain → VreSwapChain)
    (alloc : Nat → Option (Nat → Nat)) (plRes : Option Nat) (fuel : Nat) :
    Except InitErr AppState :=
  match plRes with
  | none => .error .pipelineLayoutFail
  | some pl =>
    constructorRest win mk alloc fuel { initialModelState with pipelineLayout := some pl }

/-- States the program can actually be in when `drawFrame` or
`recreateSwapChain` run from the main loop: the state right after a
successful construction, and any state reached from one by successful
`drawFrame` calls (with arbitrary oracle behaviour each frame). -/
inductive Reachable : AppState → Prop
  | init (win : Nat → VkExtent2D) (mk : VkExtent2D → Option VreSwapChain → VreSwapChain)
      (alloc : Nat → Option (Nat → Nat)) (plRes : Option Nat) (fuel : Nat)
      (s : AppState) : vreAppInit win mk alloc plRes fuel = .ok s → Reachable s
  | step (s : AppState) (win : Nat → VkExtent2D)
      (mk : VkExtent2D → Option VreSwapChain → VreSwapChain)
      (alloc : Nat → Option (Nat → Nat)) (acqRes : VkResult) (imageIndex : Nat)
      (subRes : VkResult) (fuel : Nat) (s' : AppState) (l : List Ev) :
      Reachable s → drawFrame win mk alloc acqRes imageIndex subRes fuel s = .ok (s', l) →
      Reachable s'

/-! ### Concrete oracle fixtures used by witnesses and counterexamples -/

/-- A window whose extent is `(0,0)` until `n` waits have completed, then
`(800,600)`: the simulated window of the extent-polling property. -/
def stepWindow (n : Nat) : Nat → VkExtent2D :=
  fun waits => if waits < n then ⟨0, 0⟩ else ⟨800, 600⟩

/-- A constructor oracle: three images, render pass handle 7 fresh / 8 on
transfer, framebuffer handles 10/11/12. -/
def mkC : VkExtent2D → Option VreSwapChain → VreSwapChain :=
  fun e old => ⟨3, e, match old with | none => 7 | some _ => 8, [10, 11, 12]⟩

/-- A constructor oracle that reports only two images on transfer. -/
def mkTwoC : VkExtent2D → Option VreSwapChain → VreSwapChain :=
  fun e old => ⟨match old with | none => 3 | some _ => 2, e, 9, [20, 21]⟩

/-- An always-succeeding allocation oracle with distinct handles. -/
def allocC : Nat → Option (Nat → Nat) :=
  fun _ => some (fun i => 100 + i)

/-- The state after `createPipelineLayout()` in the constructor, just before
the constructor's `recreateSwapChain()` call. -/
def sPreC : AppState :=
  { initialState with vreModel := some loadModels, pipelineLayout := some 1 }

/-- Event classifier: is this a command-buffer recording? -/
def isRecordEv : Ev → Bool
  | .record _ _ => true
  | _ => false

/-- Event classifier: is this a command-buffer submission? -/
def isSubmitEv : Ev → Bool
  | .submit _ => true
  | _ => false

/-- Event classifier: is this a surface-recreation cycle? -/
def isRecreateEv : Ev → Bool
  | .recreate => true
  | _ => false

/-- The state produced by the fresh-construction branch when
`recreateSwapChain` runs from `sPreC` with oracles `mkC`/`allocC` and an
immediately non-zero window: swap chain and pipeline set, command buffers
still empty. -/
def sFreshC : AppState :=
  { sPreC with
    vreSwapChain := some ⟨3, ⟨800, 600⟩, 7, [10, 11, 12]⟩
    vrePipeline := some ⟨7, 1, "shaders/simple_shader.vert.spv", "shaders/simple_shader.frag.spv"⟩ }

/-- The state after a successful `VreApp::VreApp()` with oracles
`stepWindow 0` / `mkC` / `allocC`: three command buffers, matching swap
chain, pipeline built. -/
def sBootC : AppState :=
  { sFreshC with commandBuffers := [100, 101, 102] }

/-- The state after one more `recreateSwapChain` from `sBootC` with the same
oracles: the swap chain and pipeline are replaced (render pass 8 from the
transfer constructor), the command buffers untouched. -/
def sBoot2C : AppState :=
  { sBootC with
    vreSwapChain := some ⟨3, ⟨800, 600⟩, 8, [10, 11, 12]⟩
    vrePipeline := some ⟨8, 1, "shaders/simple_shader.vert.spv", "shaders/simple_shader.frag.spv"⟩ }

/-- A swap-chain state used to probe `recordCommandBuffer`. -/
def scA : VreSwapChain := ⟨2, ⟨640, 480⟩, 1, [10, 11]⟩

/-- Same extent and framebuffers as `scA`, but a different render pass. -/
def scB : VreSwapChain := ⟨2, ⟨640, 480⟩, 2, [10, 11]⟩

/-- Same extent, render pass and framebuffer-at-index-1 as `scA` has at
index 0, but different image count and framebuffer list. -/
def scC : VreSwapChain := ⟨5, ⟨640, 480⟩, 1, [99, 10]⟩

/-- A concrete pipeline used to probe `recordCommandBuffer`. -/
def pC : VrePipeline :=
  ⟨1, 1, "shaders/simple_shader.vert.spv", "shaders/simple_shader.frag.spv"⟩

/-- The swap chain held by `sBootC` (as built by `mkC` at `(800,600)`). -/
def scOldC : VreSwapChain := ⟨3, ⟨800, 600⟩, 7, [10, 11, 12]⟩

/-- The state after a `recreateSwapChain` from `sBootC` with the `mkTwoC`
oracle, whose transfer constructor reports only two images: the command
buffers were freed and reallocated to length 2. -/
def sTwoC : AppState :=
  { sBootC with
    commandBuffers := [100, 101]
    vreSwapChain := some ⟨2, ⟨800, 600⟩, 9, [20, 21]⟩
    vrePipeline := some ⟨9, 1, "shaders/simple_shader.vert.spv", "shaders/simple_shader.frag.spv"⟩ }

/-! ## Theorems -/

lemma bitLen_le_of_lt_pow {n k : Nat} (h : n < 2 ^ k) : bitLen n ≤ k := by
  unfold bitLen
  split
  · exact Nat.zero_le _
  · rename_i hn
    have hlt := (Nat.log2_lt hn).mpr h
    omega

lemma floatCastRoundTrip_exact {n : Nat} (h : n < 2 ^ 24) : floatCastRoundTrip n = n := by
  have hb : bitLen n - 24 = 0 := by
    have := bitLen_le_of_lt_pow h
    omega
  unfold floatCastRoundTrip roundNearestEven
  rw [hb]
  simp [Nat.mod_one]

/-- C10: in `freeCommandBuffers`, the buffer count handed to
`vkFreeCommandBuffers` goes through `static_cast<float>` and back to an
unsigned integer; for every command-buffer vector whose size is below `2^24`
(hence exactly representable in single precision), the count freed equals the
vector's size. -/
theorem freeCommandBuffers_count_exact (cbs : List Nat) (h : cbs.length < 2 ^ 24) :
    (freeCommandBuffers cbs).1 = cbs.length :=
  floatCastRoundTrip_exact h

/-- Witness: freeing a three-element vector frees exactly three buffers. -/
theorem freeCommandBuffers_count_exact_witness :
    [5, 6, 7].length < 2 ^ 24 ∧ (freeCommandBuffers [5, 6, 7]).1 = [5, 6, 7].length :=
  ⟨by norm_num, freeCommandBuffers_count_exact [5, 6, 7] (by norm_num)⟩

/-- C6: `freeCommandBuffers` empties the set, and calling it again is a
no-op: the second call reports zero buffers freed and leaves the empty set
unchanged. It is a total function — there is no error path — so it is safe
on an empty set. -/
theorem freeCommandBuffers_idempotent (cbs : List Nat) :
    (freeCommandBuffers cbs).2 = [] ∧
    freeCommandBuffers (freeCommandBuffers cbs).2 = (0, ([] : List Nat)) :=
  ⟨rfl, show freeCommandBuffers ([] : List Nat) = (0, []) from by decide⟩

lemma createPipeline_some (s : AppState) (sc : VreSwapChain) (pl : Nat)
    (h1 : s.vreSwapChain = some sc) (h2 : s.pipelineLayout = some pl) :
    createPipeline s = some ⟨sc.renderPass, pl, "shaders/simple_shader.vert.spv",
      "shaders/simple_shader.frag.spv"⟩ := by
  rw [createPipeline, h1, h2]

lemma extentLoopAux_ok_nonzero (w : Nat → VkExtent2D) :
    ∀ (fuel : Nat) (e0 : VkExtent2D) (r0 w0 : Nat) (e : VkExtent2D) (r wt : Nat),
      extentLoopAux w fuel e0 r0 w0 = some (e, r, wt) → e.width ≠ 0 ∧ e.height ≠ 0 := by
  intro fuel
  induction fuel with
  | zero =>
    intro e0 r0 w0 e r wt h
    rw [extentLoopAux] at h
    split at h
    · exact absurd h (by simp)
    · rename_i hc
      push_neg at hc
      simp only [Option.some.injEq, Prod.mk.injEq] at h
      obtain ⟨rfl, -, -⟩ := h
      exact hc
  | succ f ih =>
    intro e0 r0 w0 e r wt h
    rw [extentLoopAux] at h
    split at h
    · exact ih _ _ _ _ _ _ h
    · rename_i hc
      push_neg at hc
      simp only [Option.some.injEq, Prod.mk.injEq] at h
      obtain ⟨rfl, -, -⟩ := h
      exact hc


lemma extentLoopAux_exit (w : Nat → VkExtent2D) (fuel : Nat) (e : VkExtent2D)
    (r wt : Nat) (h : ¬(e.width = 0 ∨ e.height = 0)) :
    extentLoopAux w fuel e r wt = some (e, r, wt) := by
  cases fuel <;> rw [extentLoopAux] <;> rw [if_neg h]

lemma extentLoopAux_stepWindow (n : Nat) :
    ∀ (d j r fuel : Nat), j + d = n → d + 1 ≤ fuel →
      extentLoopAux (stepWindow n) fuel ⟨0, 0⟩ r j =
        some (⟨800, 600⟩, r + d + 1, n + 1) := by
  intro d
  induction d with
  | zero =>
    intro j r fuel hj hf
    obtain ⟨f, rfl⟩ : ∃ f, fuel = f + 1 := ⟨fuel - 1, by omega⟩
    rw [extentLoopAux, if_pos (Or.inl rfl)]
    have hw : stepWindow n j = ⟨800, 600⟩ := by
      unfold stepWindow
      rw [if_neg (by omega)]
    rw [hw, extentLoopAux_exit _ _ _ _ _ (by simp)]
    simp only [Option.some.injEq, Prod.mk.injEq, true_and, and_true]
    omega
  | succ d ih =>
    intro j r fuel hj hf
    obtain ⟨f, rfl⟩ : ∃ f, fuel = f + 1 := ⟨fuel - 1, by omega⟩
    rw [extentLoopAux, if_pos (Or.inl rfl)]
    have hw : stepWindow n j = ⟨0, 0⟩ := by
      unfold stepWindow
      rw [if_pos (by omega)]
    rw [hw, ih (j + 1) (r + 1) f (by omega) (by omega)]
    simp only [Option.some.injEq, Prod.mk.injEq, true_and, and_true]
    omega

lemma finishRecreate_some (s1 : AppState) (p : VrePipeline) (reads waits : Nat)
    (e : VkExtent2D) (hp : createPipeline s1 = some p) :
    finishRecreate s1 reads waits e =
      .ok ({ s1 with vrePipeline := some p }, ⟨reads, waits, [e]⟩) := by
  rw [finishRecreate, hp]

lemma finishRecreate_ok (s1 s' : AppState) (reads waits : Nat) (e : VkExtent2D)
    (log : RecreateLog) (h : finishRecreate s1 reads waits e = .ok (s', log)) :
    ∃ p, createPipeline s1 = some p ∧ s' = { s1 with vrePipeline := some p } ∧
      log = ⟨reads, waits, [e]⟩ := by
  rw [finishRecreate] at h
  cases hcp : createPipeline s1 with
  | none => rw [hcp] at h; exact absurd h (by simp)
  | some p =>
    rw [hcp] at h
    simp only [Except.ok.injEq, Prod.mk.injEq] at h
    exact ⟨p, rfl, h.1.symm, h.2.symm⟩

lemma createPipeline_some_inv (s : AppState) (p : VrePipeline)
    (h : createPipeline s = some p) :
    ∃ sc pl, s.vreSwapChain = some sc ∧ s.pipelineLayout = some pl ∧
      p = ⟨sc.renderPass, pl, "shaders/simple_shader.vert.spv",
        "shaders/simple_shader.frag.spv"⟩ := by
  rw [createPipeline] at h
  cases hsc : s.vreSwapChain with
  | none => rw [hsc] at h; exact absurd h (by simp)
  | some sc =>
    cases hpl : s.pipelineLayout with
    | none => rw [hsc, hpl] at h; exact absurd h (by simp)
    | some pl =>
      rw [hsc, hpl] at h
      simp only [Option.some.injEq] at h
      exact ⟨sc, pl, rfl, rfl, h.symm⟩

lemma recreateAfterPoll_fresh (mk : VkExtent2D → Option VreSwapChain → VreSwapChain)
    (alloc : Nat → Option (Nat → Nat)) (s : AppState) (e : VkExtent2D)
    (reads waits : Nat) (hsc : s.vreSwapChain = none) :
    recreateAfterPoll mk alloc s e reads waits =
      finishRecreate { s with vreSwapChain := some (mk e none) } reads waits e := by
  rw [recreateAfterPoll, hsc]

lemma recreateAfterPoll_replace_eq (mk : VkExtent2D → Option VreSwapChain → VreSwapChain)
    (alloc : Nat → Option (Nat → Nat)) (s : AppState) (e : VkExtent2D)
    (reads waits : Nat) (old : VreSwapChain) (hsc : s.vreSwapChain = some old)
    (him : (mk e (some old)).imageCount = s.commandBuffers.length) :
    recreateAfterPoll mk alloc s e reads waits =
      finishRecreate { s with vreSwapChain := some (mk e (some old)) } reads waits e := by
  rw [recreateAfterPoll, hsc]
  simp only [if_neg (by omega : ¬(mk e (some old)).imageCount ≠ s.commandBuffers.length)]

lemma recreateAfterPoll_replace_ne (mk : VkExtent2D → Option VreSwapChain → VreSwapChain)
    (alloc : Nat → Option (Nat → Nat)) (s : AppState) (e : VkExtent2D)
    (reads waits : Nat) (old : VreSwapChain) (hsc : s.vreSwapChain = some old)
    (him : (mk e (some old)).imageCount ≠ s.commandBuffers.length) :
    recreateAfterPoll mk alloc s e reads waits =
      match createCommandBuffers (mk e (some old)) alloc with
      | none => .error .allocFail
      | some cbs =>
        finishRecreate
          { s with
            vreSwapChain := some (mk e (some old))
            commandBuffers := (freeCommandBuffers s.commandBuffers).2 ++ cbs }
          reads waits e := by
  rw [recreateAfterPoll, hsc]
  simp only [if_pos him]

lemma recreateSwapChain_ok_inv (win : Nat → VkExtent2D)
    (mk : VkExtent2D → Option VreSwapChain → VreSwapChain)
    (alloc : Nat → Option (Nat → Nat)) (fuel : Nat) (s s' : AppState)
    (log : RecreateLog) (h : recreateSwapChain win mk alloc fuel s = .ok (s', log)) :
    ∃ ex reads waits, pollNonzeroExtent win fuel = some (ex, reads, waits) ∧
      recreateAfterPoll mk alloc s ex reads waits = .ok (s', log) := by
  rw [recreateSwapChain] at h
  cases hpoll : pollNonzeroExtent win fuel with
  | none => rw [hpoll] at h; exact absurd h (by simp)
  | some v =>
    obtain ⟨ex, reads, waits⟩ := v
    rw [hpoll] at h
    exact ⟨ex, reads, waits, rfl, h⟩

lemma recreateAfterPoll_ok_log (mk : VkExtent2D → Option VreSwapChain → VreSwapChain)
    (alloc : Nat → Option (Nat → Nat)) (s : AppState) (e : VkExtent2D)
    (reads waits : Nat) (s' : AppState) (log : RecreateLog)
    (h : recreateAfterPoll mk alloc s e reads waits = .ok (s', log)) :
    log = ⟨reads, waits, [e]⟩ ∧ s'.pipelineLayout = s.pipelineLayout ∧
      s'.vreModel = s.vreModel ∧ s'.windowResized = s.windowResized := by
  cases hsc : s.vreSwapChain with
  | none =>
    rw [recreateAfterPoll_fresh mk alloc s e reads waits hsc] at h
    obtain ⟨p, -, rfl, rfl⟩ := finishRecreate_ok _ _ _ _ _ _ h
    exact ⟨rfl, rfl, rfl, rfl⟩
  | some old =>
    by_cases him : (mk e (some old)).imageCount = s.commandBuffers.length
    · rw [recreateAfterPoll_replace_eq mk alloc s e reads waits old hsc him] at h
      obtain ⟨p, -, rfl, rfl⟩ := finishRecreate_ok _ _ _ _ _ _ h
      exact ⟨rfl, rfl, rfl, rfl⟩
    · rw [recreateAfterPoll_replace_ne mk alloc s e reads waits old hsc him] at h
      cases hcb : createCommandBuffers (mk e (some old)) alloc with
      | none => rw [hcb] at h; exact absurd h (by simp)
      | some cbs =>
        rw [hcb] at h
        obtain ⟨p, -, rfl, rfl⟩ := finishRecreate_ok _ _ _ _ _ _ h
        exact ⟨rfl, rfl, rfl, rfl⟩

/-- C2 (amended): every extent at which a successful `recreateSwapChain`
constructs a surface is non-zero in both dimensions (the call never proceeds
while either dimension is 0), and for the simulated window that starts at
`(0,0)` and switches to `(800,600)` after `n ≥ 1` blocking waits (enough
fuel, no pre-existing surface), the call performs exactly `n + 2` extent
reads — one more than the claimed `n + 1`, because the loop body re-reads the
extent *before* each `glfwWaitEvents` — `n + 1` waits, and exactly one
surface construction, at `(800,600)`. -/
theorem recreateSwapChain_extent_poll :
    (∀ (win : Nat → VkExtent2D) (mk : VkExtent2D → Option VreSwapChain → VreSwapChain)
        (alloc : Nat → Option (Nat → Nat)) (fuel : Nat) (s s' : AppState)
        (log : RecreateLog),
        recreateSwapChain win mk alloc fuel s = .ok (s', log) →
        ∀ e ∈ log.constructions, e.width ≠ 0 ∧ e.height ≠ 0) ∧
    (∀ (n : Nat) (mk : VkExtent2D → Option VreSwapChain → VreSwapChain)
        (alloc : Nat → Option (Nat → Nat)) (fuel : Nat) (s : AppState),
        1 ≤ n → n + 1 ≤ fuel → s.vreSwapChain = none → s.pipelineLayout.isSome →
        (recreateSwapChain (stepWindow n) mk alloc fuel s).toOption.map Prod.snd =
          some ⟨n + 2, n + 1, [⟨800, 600⟩]⟩) := by
  constructor
  · intro win mk alloc fuel s s' log h e he
    obtain ⟨ex, reads, waits, hpoll, hafter⟩ := recreateSwapChain_ok_inv _ _ _ _ _ _ _ h
    obtain ⟨hlog, -, -, -⟩ := recreateAfterPoll_ok_log _ _ _ _ _ _ _ _ hafter
    subst hlog
    simp only [List.mem_singleton] at he
    subst he
    exact extentLoopAux_ok_nonzero win fuel (win 0) 1 0 e reads waits hpoll
  · intro n mk alloc fuel s hn hf hsc hpl
    have hw0 : stepWindow n 0 = ⟨0, 0⟩ := by
      unfold stepWindow
      rw [if_pos (by omega)]
    have hloop : pollNonzeroExtent (stepWindow n) fuel =
        some (⟨800, 600⟩, n + 2, n + 1) := by
      unfold pollNonzeroExtent
      rw [hw0, extentLoopAux_stepWindow n n 0 1 fuel (by omega) (by omega)]
      simp only [Option.some.injEq, Prod.mk.injEq, true_and, and_true]
      omega
    obtain ⟨pl, hpl2⟩ := Option.isSome_iff_exists.mp hpl
    rw [recreateSwapChain, hloop]
    show (recreateAfterPoll mk alloc s ⟨800, 600⟩ (n + 2) (n + 1)).toOption.map Prod.snd = _
    rw [recreateAfterPoll_fresh mk alloc s _ _ _ hsc,
      finishRecreate_some _ _ _ _ _
        (createPipeline_some { s with vreSwapChain := some (mk ⟨800, 600⟩ none) }
          (mk ⟨800, 600⟩ none) pl rfl hpl2)]
    rfl

/-- C2 counterexample: for the window that switches after `n = 1` waits, the
loop performs 3 extent reads (and 2 waits), not the claimed `n + 1 = 2`. -/
theorem recreateSwapChain_extent_poll_cex :
    (recreateSwapChain (stepWindow 1) mkC allocC 5 sPreC).toOption.map Prod.snd =
      some ⟨3, 2, [⟨800, 600⟩]⟩ ∧ (3 : Nat) ≠ 1 + 1 :=
  ⟨rfl, by decide⟩

/-- Witness for C2: at `n = 2` with fuel 5 from the pre-construction state,
the call makes 4 reads, 3 waits, one construction at `(800,600)`. -/
theorem recreateSwapChain_extent_poll_witness :
    (1 ≤ 2) ∧
    (recreateSwapChain (stepWindow 2) mkC allocC 5 sPreC).toOption.map Prod.snd =
      some ⟨4, 3, [⟨800, 600⟩]⟩ :=
  ⟨by decide, recreateSwapChain_extent_poll.2 2 mkC allocC 5 sPreC (by decide) (by decide)
    rfl rfl⟩

lemma createCommandBuffers_length (sc : VreSwapChain) (alloc : Nat → Option (Nat → Nat))
    (cbs : List Nat) (h : createCommandBuffers sc alloc = some cbs) :
    cbs.length = sc.imageCount := by
  rw [createCommandBuffers] at h
  cases ha : alloc sc.imageCount with
  | none => rw [ha] at h; exact absurd h (by simp)
  | some hnd =>
    rw [ha] at h
    simp only [Option.some.injEq] at h
    rw [← h]
    simp

/-- C1 counterexample: from the constructor state (no surface yet, empty
command-buffer vector), a successful `recreateSwapChain` builds a surface
with image count 3 but leaves the CommandBufferSet at length 0 — the claimed
invariant fails in the fresh-construction branch. -/
theorem recreateSwapChain_fresh_no_realloc :
    recreateSwapChain (stepWindow 0) mkC allocC 5 sPreC =
      .ok (sFreshC, ⟨1, 0, [⟨800, 600⟩]⟩) ∧
    sFreshC.vreSwapChain = some ⟨3, ⟨800, 600⟩, 7, [10, 11, 12]⟩ ∧
    sFreshC.commandBuffers.length = 0 ∧ (0 : Nat) ≠ 3 :=
  ⟨rfl, rfl, rfl, by decide⟩

/-- C1 (amended): after any successful `recreateSwapChain` in which a
PresentationSurface already existed, the CommandBufferSet length equals the
image count of the new (current) PresentationSurface. In the
fresh-construction branch the CommandBufferSet is left untouched instead —
there the constructor establishes the invariant by calling
`createCommandBuffers` right afterwards. -/
theorem recreateSwapChain_cmd_len (win : Nat → VkExtent2D)
    (mk : VkExtent2D → Option VreSwapChain → VreSwapChain)
    (alloc : Nat → Option (Nat → Nat)) (fuel : Nat) (s : AppState)
    (old : VreSwapChain) (s' : AppState) (log : RecreateLog) (sc : VreSwapChain)
    (hold : s.vreSwapChain = some old)
    (h : recreateSwapChain win mk alloc fuel s = .ok (s', log))
    (hsc : s'.vreSwapChain = some sc) :
    s'.commandBuffers.length = sc.imageCount := by
  obtain ⟨ex, reads, waits, hpoll, hafter⟩ := recreateSwapChain_ok_inv _ _ _ _ _ _ _ h
  by_cases him : (mk ex (some old)).imageCount = s.commandBuffers.length
  · rw [recreateAfterPoll_replace_eq mk alloc s ex reads waits old hold him] at hafter
    obtain ⟨p, -, rfl, -⟩ := finishRecreate_ok _ _ _ _ _ _ hafter
    simp only [Option.some.injEq] at hsc
    rw [← hsc]
    exact him.symm
  · rw [recreateAfterPoll_replace_ne mk alloc s ex reads waits old hold him] at hafter
    cases hcb : createCommandBuffers (mk ex (some old)) alloc with
    | none => rw [hcb] at hafter; exact absurd hafter (by simp)
    | some cbs =>
      rw [hcb] at hafter
      obtain ⟨p, -, rfl, -⟩ := finishRecreate_ok _ _ _ _ _ _ hafter
      simp only [Option.some.injEq] at hsc
      rw [← hsc]
      show ((freeCommandBuffers s.commandBuffers).2 ++ cbs).length = _
      rw [show (freeCommandBuffers s.commandBuffers).2 = [] from rfl, List.nil_append]
      exact createCommandBuffers_length _ _ _ hcb

/-- Witness for C1 (amended): replacing the boot surface with `mkC` keeps the
three command buffers, matching the new surface's image count 3. -/
theorem recreateSwapChain_cmd_len_witness :
    sBoot2C.commandBuffers.length =
      (⟨3, ⟨800, 600⟩, 8, [10, 11, 12]⟩ : VreSwapChain).imageCount :=
  recreateSwapChain_cmd_len (stepWindow 0) mkC allocC 5 sBootC scOldC sBoot2C
    ⟨1, 0, [⟨800, 600⟩]⟩ ⟨3, ⟨800, 600⟩, 8, [10, 11, 12]⟩ rfl rfl rfl

/-- C5: a successful `recreateSwapChain` that replaces an existing surface
always installs the new surface and a new pipeline built on it; it leaves the
CommandBufferSet untouched when the new image count equals the old length,
and frees (emptying the set) and reallocates it to the new image count when
they differ. -/
theorem recreateSwapChain_realloc_iff (win : Nat → VkExtent2D)
    (mk : VkExtent2D → Option VreSwapChain → VreSwapChain)
    (alloc : Nat → Option (Nat → Nat)) (fuel : Nat) (s : AppState)
    (old : VreSwapChain) (s' : AppState) (log : RecreateLog) (ex : VkExtent2D)
    (reads waits pl : Nat) (hold : s.vreSwapChain = some old)
    (hpl : s.pipelineLayout = some pl)
    (hpoll : pollNonzeroExtent win fuel = some (ex, reads, waits))
    (h : recreateSwapChain win mk alloc fuel s = .ok (s', log)) :
    s'.vreSwapChain = some (mk ex (some old)) ∧
    s'.vrePipeline = some ⟨(mk ex (some old)).renderPass, pl,
      "shaders/simple_shader.vert.spv", "shaders/simple_shader.frag.spv"⟩ ∧
    ((mk ex (some old)).imageCount = s.commandBuffers.length →
      s'.commandBuffers = s.commandBuffers) ∧
    ((mk ex (some old)).imageCount ≠ s.commandBuffers.length →
      (freeCommandBuffers s.commandBuffers).2 = [] ∧
      createCommandBuffers (mk ex (some old)) alloc = some s'.commandBuffers ∧
      s'.commandBuffers.length = (mk ex (some old)).imageCount) := by
  obtain ⟨ex2, r2, w2, hpoll2, hafter⟩ := recreateSwapChain_ok_inv _ _ _ _ _ _ _ h
  rw [hpoll] at hpoll2
  simp only [Option.some.injEq, Prod.mk.injEq] at hpoll2
  obtain ⟨rfl, rfl, rfl⟩ := hpoll2
  by_cases him : (mk ex (some old)).imageCount = s.commandBuffers.length
  · rw [recreateAfterPoll_replace_eq mk alloc s ex reads waits old hold him] at hafter
    obtain ⟨p, hp, rfl, -⟩ := finishRecreate_ok _ _ _ _ _ _ hafter
    rw [createPipeline_some { s with vreSwapChain := some (mk ex (some old)) }
      (mk ex (some old)) pl rfl hpl] at hp
    simp only [Option.some.injEq] at hp
    subst hp
    exact ⟨rfl, rfl, fun _ => rfl, fun hne => absurd him hne⟩
  · rw [recreateAfterPoll_replace_ne mk alloc s ex reads waits old hold him] at hafter
    cases hcb : createCommandBuffers (mk ex (some old)) alloc with
    | none => rw [hcb] at hafter; exact absurd hafter (by simp)
    | some cbs =>
      rw [hcb] at hafter
      obtain ⟨p, hp, rfl, -⟩ := finishRecreate_ok _ _ _ _ _ _ hafter
      rw [createPipeline_some
        { s with
          vreSwapChain := some (mk ex (some old))
          commandBuffers := (freeCommandBuffers s.commandBuffers).2 ++ cbs }
        (mk ex (some old)) pl rfl hpl] at hp
      simp only [Option.some.injEq] at hp
      subst hp
      refine ⟨rfl, rfl, fun heq => absurd heq him, fun _ => ⟨rfl, ?_, ?_⟩⟩
      · show some cbs = some ((freeCommandBuffers s.commandBuffers).2 ++ cbs)
        rw [show (freeCommandBuffers s.commandBuffers).2 = [] from rfl, List.nil_append]
      · show ((freeCommandBuffers s.commandBuffers).2 ++ cbs).length = _
        rw [show (freeCommandBuffers s.commandBuffers).2 = [] from rfl, List.nil_append]
        exact createCommandBuffers_length _ _ _ hcb

/-- Witness for C5: shrinking the image count from 3 to 2 via `mkTwoC` frees
the set and reallocates it to length 2. -/
theorem recreateSwapChain_realloc_iff_witness :
    (mkTwoC ⟨800, 600⟩ (some scOldC)).imageCount ≠ sBootC.commandBuffers.length ∧
    createCommandBuffers (mkTwoC ⟨800, 600⟩ (some scOldC)) allocC =
      some sTwoC.commandBuffers ∧
    sTwoC.commandBuffers.length = (mkTwoC ⟨800, 600⟩ (some scOldC)).imageCount :=
  ⟨by decide,
    ((recreateSwapChain_realloc_iff (stepWindow 0) mkTwoC allocC 5 sBootC scOldC sTwoC
      ⟨1, 0, [⟨800, 600⟩]⟩ ⟨800, 600⟩ 1 0 1 rfl rfl rfl rfl).2.2.2 (by decide)).2⟩

/-- C3: when acquire reports out-of-date, `drawFrame` performs exactly one
recreation cycle, records zero command buffers, submits zero, and returns
without error. -/
theorem drawFrame_acquire_out_of_date (win : Nat → VkExtent2D)
    (mk : VkExtent2D → Option VreSwapChain → VreSwapChain)
    (alloc : Nat → Option (Nat → Nat)) (s : AppState) (sc : VreSwapChain)
    (i : Nat) (subRes : VkResult) (fuel : Nat) (s2 : AppState) (log : RecreateLog)
    (hsc : s.vreSwapChain = some sc)
    (hrec : recreateSwapChain win mk alloc fuel s = .ok (s2, log)) :
    drawFrame win mk alloc .errorOutOfDateKhr i subRes fuel s = .ok (s2, [.recreate]) ∧
    [Ev.recreate].countP isRecordEv = 0 ∧
    [Ev.recreate].countP isSubmitEv = 0 ∧
    [Ev.recreate].countP isRecreateEv = 1 := by
  refine ⟨?_, by decide, by decide, by decide⟩
  simp only [drawFrame, hsc]
  rw [if_pos trivial, hrec]

/-- Witness for C3: an out-of-date acquire from the boot state yields exactly
one recreation event and the recreated state. -/
theorem drawFrame_acquire_out_of_date_witness :
    drawFrame (stepWindow 0) mkC allocC .errorOutOfDateKhr 0 .success 5 sBootC =
      .ok (sBoot2C, [.recreate]) ∧
    [Ev.recreate].countP isRecordEv = 0 ∧
    [Ev.recreate].countP isSubmitEv = 0 ∧
    [Ev.recreate].countP isRecreateEv = 1 :=
  drawFrame_acquire_out_of_date (stepWindow 0) mkC allocC sBootC scOldC 0 .success 5
    sBoot2C ⟨1, 0, [⟨800, 600⟩]⟩ rfl rfl

/-- C4: when acquisition succeeds (success or suboptimal) and the submit
result is out-of-date/suboptimal or the resize flag of the window is pending, the
frame is recorded and submitted exactly once first, then the resize flag is
cleared and exactly one recreation runs, and the call returns without error —
the event list fixes this order. -/
theorem drawFrame_stale_post_submit (win : Nat → VkExtent2D)
    (mk : VkExtent2D → Option VreSwapChain → VreSwapChain)
    (alloc : Nat → Option (Nat → Nat)) (s : AppState) (sc : VreSwapChain)
    (p : VrePipeline) (m : VreModel) (acqRes : VkResult) (i : Nat)
    (subRes : VkResult) (fuel : Nat) (s2 : AppState) (log : RecreateLog)
    (hsc : s.vreSwapChain = some sc) (hp : s.vrePipeline = some p)
    (hm : s.vreModel = some m)
    (hacq : acqRes = .success ∨ acqRes = .suboptimalKhr)
    (hstale : subRes = .errorOutOfDateKhr ∨ subRes = .suboptimalKhr ∨
      s.windowResized = true)
    (hrec : recreateSwapChain win mk alloc fuel { s with windowResized := false } =
      .ok (s2, log)) :
    drawFrame win mk alloc acqRes i subRes fuel s =
      .ok (s2, [.record i (recordCommandBuffer sc p m i), .submit i,
        .resetResizeFlag, .recreate]) ∧
    s2.windowResized = false := by
  constructor
  · rw [hsc, hp, hm] at hrec
    rcases hacq with rfl | rfl <;>
    · simp only [drawFrame, hsc, hp, hm]
      rw [if_neg (by simp), if_neg (by simp), if_pos hstale, hrec]
  · obtain ⟨ex, reads, waits, -, hafter⟩ := recreateSwapChain_ok_inv _ _ _ _ _ _ _ hrec
    obtain ⟨-, -, -, hwr⟩ := recreateAfterPoll_ok_log _ _ _ _ _ _ _ _ hafter
    exact hwr

/-- Witness for C4: a suboptimal submit after a successful acquire from the
boot state records and submits buffer 0, then clears the flag and recreates. -/
theorem drawFrame_stale_post_submit_witness :
    drawFrame (stepWindow 0) mkC allocC .success 0 .suboptimalKhr 5 sBootC =
      .ok (sBoot2C, [.record 0 (recordCommandBuffer scOldC
        ⟨7, 1, "shaders/simple_shader.vert.spv", "shaders/simple_shader.frag.spv"⟩
        loadModels 0), .submit 0, .resetResizeFlag, .recreate]) ∧
    sBoot2C.windowResized = false :=
  drawFrame_stale_post_submit (stepWindow 0) mkC allocC sBootC scOldC
    ⟨7, 1, "shaders/simple_shader.vert.spv", "shaders/simple_shader.frag.spv"⟩
    loadModels .success 0 .suboptimalKhr 5 sBoot2C ⟨1, 0, [⟨800, 600⟩]⟩
    rfl rfl rfl (Or.inl rfl) (Or.inr (Or.inl rfl)) rfl

/-- C7: with all handles present, `drawFrame` fails with the fatal acquire
error exactly when the acquire result is neither success, nor suboptimal, nor
out-of-date (the latter being diverted to the non-fatal recreation path). -/
theorem drawFrame_acquire_fatal (win : Nat → VkExtent2D)
    (mk : VkExtent2D → Option VreSwapChain → VreSwapChain)
    (alloc : Nat → Option (Nat → Nat)) (s : AppState) (sc : VreSwapChain)
    (p : VrePipeline) (m : VreModel) (acqRes : VkResult) (i : Nat)
    (subRes : VkResult) (fuel : Nat)
    (hsc : s.vreSwapChain = some sc) (hp : s.vrePipeline = some p)
    (hm : s.vreModel = some m) :
    drawFrame win mk alloc acqRes i subRes fuel s = .error .acquireFail ↔
      acqRes ≠ .success ∧ acqRes ≠ .suboptimalKhr ∧ acqRes ≠ .errorOutOfDateKhr := by
  constructor
  · intro h
    cases acqRes with
    | success =>
      exfalso
      simp only [drawFrame, hsc, hp, hm] at h
      rw [if_neg (by simp), if_neg (by simp)] at h
      split at h
      · split at h <;> simp at h
      · split at h <;> simp at h
    | suboptimalKhr =>
      exfalso
      simp only [drawFrame, hsc, hp, hm] at h
      rw [if_neg (by simp), if_neg (by simp)] at h
      split at h
      · split at h <;> simp at h
      · split at h <;> simp at h
    | errorOutOfDateKhr =>
      exfalso
      simp only [drawFrame, hsc] at h
      rw [if_pos trivial] at h
      split at h <;> simp at h
    | otherFailure c => exact ⟨by simp, by simp, by simp⟩
  · rintro ⟨h1, h2, h3⟩
    simp only [drawFrame, hsc]
    rw [if_neg h3, if_pos ⟨h1, h2⟩]

/-- Witness for C7: a device-lost-style acquire result is the fatal error. -/
theorem drawFrame_acquire_fatal_witness :
    drawFrame (stepWindow 0) mkC allocC (.otherFailure 4) 0 .success 5 sBootC =
      .error .acquireFail :=
  (drawFrame_acquire_fatal (stepWindow 0) mkC allocC sBootC scOldC
    ⟨7, 1, "shaders/simple_shader.vert.spv", "shaders/simple_shader.frag.spv"⟩
    loadModels (.otherFailure 4) 0 .success 5 rfl rfl rfl).mpr
    ⟨by simp, by simp, by simp⟩

/-- C8 counterexample: two swap chains with the same extent (and the same
pipeline and model) but different render-pass handles produce different
command sequences — the recorded commands are not a function of
(Pipeline, Model, extent) only. -/
theorem recordCommandBuffer_not_extent_only :
    scA.swapChainExtent = scB.swapChainExtent ∧
    recordCommandBuffer scA pC loadModels 0 ≠ recordCommandBuffer scB pC loadModels 0 :=
  ⟨rfl, by decide⟩

/-- C8 (amended): `recordCommandBuffer` is deterministic as a function of
(Pipeline, Model, extent, render-pass handle, framebuffer handle at the image
index): two runs agreeing on all of these — and only these — produce
identical command sequences, with the fixed `(0.1,0.1,0.1,1)` color clear,
`(1,0)` depth/stencil clear, full-extent viewport and scissor, and one
bind-and-draw of the model. -/
theorem recordCommandBuffer_deterministic (sc1 sc2 : VreSwapChain) (p : VrePipeline)
    (m : VreModel) (i j : Nat)
    (hext : sc1.swapChainExtent = sc2.swapChainExtent)
    (hrp : sc1.renderPass = sc2.renderPass)
    (hfb : sc1.framebuffers.getD i 0 = sc2.framebuffers.getD j 0) :
    recordCommandBuffer sc1 p m i = recordCommandBuffer sc2 p m j := by
  simp only [recordCommandBuffer, hext, hrp, hfb]

/-- Witness for C8 (amended): `scA` at index 0 and `scC` at index 1 agree on
extent, render pass and framebuffer handle, and record identical commands
although their image counts and framebuffer lists differ. -/
theorem recordCommandBuffer_deterministic_witness :
    scA.swapChainExtent = scC.swapChainExtent ∧ scA.renderPass = scC.renderPass ∧
    scA.framebuffers.getD 0 0 = scC.framebuffers.getD 1 0 ∧
    recordCommandBuffer scA pC loadModels 0 = recordCommandBuffer scC pC loadModels 1 :=
  ⟨rfl, rfl, rfl, recordCommandBuffer_deterministic scA scC pC loadModels 0 1 rfl rfl rfl⟩

lemma recreateSwapChain_ok_preserves (win : Nat → VkExtent2D)
    (mk : VkExtent2D → Option VreSwapChain → VreSwapChain)
    (alloc : Nat → Option (Nat → Nat)) (fuel : Nat) (s s' : AppState)
    (log : RecreateLog) (h : recreateSwapChain win mk alloc fuel s = .ok (s', log)) :
    s'.pipelineLayout = s.pipelineLayout ∧ s'.vreModel = s.vreModel ∧
    s'.windowResized = s.windowResized := by
  obtain ⟨ex, reads, waits, -, hafter⟩ := recreateSwapChain_ok_inv _ _ _ _ _ _ _ h
  obtain ⟨-, h1, h2, h3⟩ := recreateAfterPoll_ok_log _ _ _ _ _ _ _ _ hafter
  exact ⟨h1, h2, h3⟩

lemma finishRecreate_ne_assertFail (s1 : AppState) (reads waits : Nat)
    (e : VkExtent2D) (p : VrePipeline) (hp : createPipeline s1 = some p) :
    finishRecreate s1 reads waits e ≠ .error .assertFail := by
  rw [finishRecreate_some s1 p reads waits e hp]
  simp

lemma recreateAfterPoll_ne_assertFail (mk : VkExtent2D → Option VreSwapChain → VreSwapChain)
    (alloc : Nat → Option (Nat → Nat)) (s : AppState) (e : VkExtent2D)
    (reads waits : Nat) (hpl : s.pipelineLayout.isSome) :
    recreateAfterPoll mk alloc s e reads waits ≠ .error .assertFail := by
  obtain ⟨pl, hpl2⟩ := Option.isSome_iff_exists.mp hpl
  intro h
  cases hsc : s.vreSwapChain with
  | none =>
    rw [recreateAfterPoll_fresh mk alloc s e reads waits hsc] at h
    exact finishRecreate_ne_assertFail _ _ _ _ _
      (createPipeline_some { s with vreSwapChain := some (mk e none) }
        (mk e none) pl rfl hpl2) h
  | some old =>
    by_cases him : (mk e (some old)).imageCount = s.commandBuffers.length
    · rw [recreateAfterPoll_replace_eq mk alloc s e reads waits old hsc him] at h
      exact finishRecreate_ne_assertFail _ _ _ _ _
        (createPipeline_some { s with vreSwapChain := some (mk e (some old)) }
          (mk e (some old)) pl rfl hpl2) h
    · rw [recreateAfterPoll_replace_ne mk alloc s e reads waits old hsc him] at h
      cases hcb : createCommandBuffers (mk e (some old)) alloc with
      | none => rw [hcb] at h; simp at h
      | some cbs =>
        rw [hcb] at h
        exact finishRecreate_ne_assertFail _ _ _ _ _
          (createPipeline_some
            { s with
              vreSwapChain := some (mk e (some old))
              commandBuffers := (freeCommandBuffers s.commandBuffers).2 ++ cbs }
            (mk e (some old)) pl rfl hpl2) h

lemma recreateSwapChain_ne_assertFail (win : Nat → VkExtent2D)
    (mk : VkExtent2D → Option VreSwapChain → VreSwapChain)
    (alloc : Nat → Option (Nat → Nat)) (fuel : Nat) (s : AppState)
    (hpl : s.pipelineLayout.isSome) :
    recreateSwapChain win mk alloc fuel s ≠ .error .assertFail := by
  intro h
  rw [recreateSwapChain] at h
  cases hpoll : pollNonzeroExtent win fuel with
  | none => rw [hpoll] at h; simp at h
  | some v =>
    obtain ⟨ex, reads, waits⟩ := v
    rw [hpoll] at h
    exact recreateAfterPoll_ne_assertFail mk alloc s ex reads waits hpl h

lemma drawFrame_ok_pipelineLayout (win : Nat → VkExtent2D)
    (mk : VkExtent2D → Option VreSwapChain → VreSwapChain)
    (alloc : Nat → Option (Nat → Nat)) (acqRes : VkResult) (i : Nat)
    (subRes : VkResult) (fuel : Nat) (s s' : AppState) (l : List Ev)
    (h : drawFrame win mk alloc acqRes i subRes fuel s = .ok (s', l)) :
    s'.pipelineLayout = s.pipelineLayout := by
  cases hsc : s.vreSwapChain with
  | none =>
    simp only [drawFrame, hsc] at h
    exact absurd h (by simp)
  | some sc =>
    simp only [drawFrame, hsc] at h
    split at h
    · split at h
      · simp at h
      · rename_i s2 lg hr
        simp only [Except.ok.injEq, Prod.mk.injEq] at h
        obtain ⟨rfl, -⟩ := h
        exact (recreateSwapChain_ok_preserves _ _ _ _ _ _ _ hr).1
    · split at h
      · simp at h
      · split at h
        · split at h
          · split at h
            · simp at h
            · rename_i s2 lg hr
              simp only [Except.ok.injEq, Prod.mk.injEq] at h
              obtain ⟨rfl, -⟩ := h
              exact (recreateSwapChain_ok_preserves _ _ _ _ _ _ _ hr).1
          · split at h
            · simp at h
            · simp only [Except.ok.injEq, Prod.mk.injEq] at h
              obtain ⟨rfl, -⟩ := h
              rfl
        · simp at h

lemma constructorRest_ok_pipelineLayout (win : Nat → VkExtent2D)
    (mk : VkExtent2D → Option VreSwapChain → VreSwapChain)
    (alloc : Nat → Option (Nat → Nat)) (fuel : Nat) (s2 s : AppState)
    (h : constructorRest win mk alloc fuel s2 = .ok s) :
    s.pipelineLayout = s2.pipelineLayout := by
  rw [constructorRest] at h
  split at h
  · simp at h
  · rename_i s3 lg hr
    split at h
    · simp at h
    · rename_i sc hsc3
      split at h
      · simp at h
      · rename_i cbs hcb
        simp only [Except.ok.injEq] at h
        subst h
        exact (recreateSwapChain_ok_preserves _ _ _ _ _ _ _ hr).1

lemma reachable_pipelineLayout_isSome (s : AppState) (h : Reachable s) :
    s.pipelineLayout.isSome := by
  induction h with
  | init win mk alloc plRes fuel s hinit =>
    cases plRes with
    | none => rw [vreAppInit] at hinit; simp at hinit
    | some pl =>
      rw [vreAppInit] at hinit
      rw [constructorRest_ok_pipelineLayout _ _ _ _ _ _ hinit]
      rfl
  | step s win mk alloc acqRes i subRes fuel s' l hre hdf ih =>
    rw [drawFrame_ok_pipelineLayout _ _ _ _ _ _ _ _ _ _ hdf]
    exact ih

/-- C9: the precondition assertions of `createPipeline` hold at its only call
site: a constructor whose `createPipelineLayout` succeeded can never fail the
assertion (the swap chain is installed before `createPipeline` runs and the
layout exists), and from any reachable state — the constructed state or any
state reached by successful `drawFrame` calls — no `recreateSwapChain` call
can fail the assertion either. -/
theorem createPipeline_preconditions_hold :
    (∀ (win : Nat → VkExtent2D) (mk : VkExtent2D → Option VreSwapChain → VreSwapChain)
        (alloc : Nat → Option (Nat → Nat)) (plRes : Option Nat) (fuel : Nat),
        vreAppInit win mk alloc plRes fuel ≠ .error (.recreateFail .assertFail)) ∧
    (∀ s : AppState, Reachable s →
      ∀ (win : Nat → VkExtent2D) (mk : VkExtent2D → Option VreSwapChain → VreSwapChain)
        (alloc : Nat → Option (Nat → Nat)) (fuel : Nat),
        recreateSwapChain win mk alloc fuel s ≠ .error .assertFail) := by
  constructor
  · intro win mk alloc plRes fuel h
    cases plRes with
    | none => rw [vreAppInit] at h; simp at h
    | some pl =>
      rw [vreAppInit, constructorRest] at h
      split at h
      · rename_i e hr
        simp only [Except.error.injEq, InitErr.recreateFail.injEq] at h
        subst h
        exact recreateSwapChain_ne_assertFail _ _ _ _ _ (by rfl) hr
      · rename_i s3 lg hr
        split at h
        · simp at h
        · rename_i sc hsc3
          split at h <;> simp at h
  · intro s hs win mk alloc fuel
    exact recreateSwapChain_ne_assertFail win mk alloc fuel s
      (reachable_pipelineLayout_isSome s hs)

/-- Witness for C9: the boot state is reachable, and a further
`recreateSwapChain` from it cannot fail the precondition assertion. -/
theorem createPipeline_preconditions_hold_witness :
    recreateSwapChain (stepWindow 0) mkC allocC 5 sBootC ≠ .error .assertFail :=
  createPipeline_preconditions_hold.2 sBootC
    (Reachable.init (stepWindow 0) mkC allocC (some 1) 5 sBootC rfl)
    (stepWindow 0) mkC allocC 5
end Vre
